import Mathlib

/-!
Verification of the exhibit-label CRUD application (src/app.py, src/database.py)
against its natural-language specification.

The Python code is shallowly embedded: the SQLite database file becomes an
explicit `DBState` value threaded through every operation, exceptions become
`Except`, functions that swallow exceptions return plain values, and the
external `json` library is modelled at the level of its contract (a stored
`data` column holds either the serialization of a JSON value or corrupt text).
-/

namespace ArtifactLabels

/-- The universe of parsed JSON values, as produced by Python's `json.loads`:
`null`, booleans, numbers (restricted to integers; the claims do not involve
floating point), strings, arrays, and objects (Python dicts keyed by strings,
modelled as association lists in which a later binding shadows an earlier one,
as `json.loads` keeps the last duplicate key). -/
inductive Json where
  | null : Json
  | bool (b : Bool) : Json
  | num (n : Int) : Json
  | str (s : String) : Json
  | arr (elems : List Json) : Json
  | obj (fields : List (String × Json)) : Json

/-- A Python value handed to `store_label_data` as its `data` argument.
`jsonable j` is an object the external `json.dumps` serializes to the text
that `json.loads` parses back to `j`; `unjsonable` is any object on which
`json.dumps` raises `TypeError`. -/
inductive PyVal where
  | jsonable (j : Json) : PyVal
  | unjsonable : PyVal

/-- The contents of the `data` TEXT column of one row of the `labels` table,
modelled by its parse behaviour: `jsonOf d` is a string `json.loads` parses to
`d` (in particular the output of `json.dumps` on a serializable value), and
`corrupt` is a string on which `json.loads` raises `JSONDecodeError`. -/
inductive StoredText where
  | jsonOf (d : Json) : StoredText
  | corrupt : StoredText

/-- Exceptions that can propagate out of the embedded database layer. -/
inductive PyErr where
  | typeError : PyErr

/-- Model of the external `json.dumps`: succeeds exactly on serializable
values, raising `TypeError` otherwise (this raise is NOT caught by
`store_label_data`, whose handler only catches `sqlite3.Error`). -/
def json_dumps : PyVal → Except PyErr StoredText
  | .jsonable j => .ok (.jsonOf j)
  | .unjsonable => .error .typeError

/-- Model of the external `json.loads` on a stored `data` string: returns the
parsed value, or `none` standing for the `JSONDecodeError` raise (which the
caller `get_label_data` catches and converts to `None`). -/
def json_loads : StoredText → Option Json
  | .jsonOf d => some d
  | .corrupt => none

/-- The state of the SQLite database file `labels.db`, plus the bookkeeping the
claims need: whether `sqlite3.connect` currently succeeds, whether the
`labels` table has been created, the rows of the table (id primary key mapped
to the `data` column; `created_at` is never read by any operation and is
omitted), and the number of connections opened and not yet closed. -/
structure DBState where
  connAvailable : Bool
  tableExists : Bool
  rows : List (String × StoredText)
  openConns : Nat

/-- Whether the `labels` table already contains a row whose primary key is
`label_id` (the condition under which `INSERT` raises `IntegrityError`). -/
def hasId (rows : List (String × StoredText)) (label_id : String) : Bool :=
  rows.any (fun r => r.1 == label_id)

/-- Embeds `get_db_connection`: on success returns a handle (modelled as
`Unit`) and records one more open connection; on failure prints and returns
`None`, leaving the state unchanged. -/
def get_db_connection (s : DBState) : Option Unit × DBState :=
  if s.connAvailable then
    (some (), { s with openConns := s.openConns + 1 })
  else
    (none, s)

/-- Embeds `conn.close()`: one fewer open connection. -/
def closeConn (s : DBState) : DBState :=
  { s with openConns := s.openConns - 1 }

/-- Embeds `init_db` (src/database.py lines 18-37): opens a connection, runs
`CREATE TABLE IF NOT EXISTS labels ...` (any `sqlite3.Error` is caught and
printed), and closes the connection in `finally`. The Flask `app` argument
only supplies an app context and carries no state the claims mention. -/
def init_db (s : DBState) : DBState :=
  match get_db_connection s with
  | (none, s1) => s1
  | (some _, s1) => closeConn { s1 with tableExists := true }

/-- Embeds `store_label_data` (src/database.py lines 39-55): opens a
connection (silently returning when that fails), serializes with
`json.dumps` — whose `TypeError` propagates past the `except Error` handler,
through `finally conn.close()`, to the caller — then `INSERT`s the row.
A `sqlite3.Error` from the `INSERT` (primary-key violation when the id already
exists, or a missing table) is caught and printed, so the function returns
normally with the table unchanged; `finally` closes the connection on every
path. -/
def store_label_data (s : DBState) (label_id : String) (data : PyVal) :
    Except PyErr Unit × DBState :=
  match get_db_connection s with
  | (none, s1) => (.ok (), s1)
  | (some _, s1) =>
    match json_dumps data with
    | .error e => (.error e, closeConn s1)
    | .ok json_data =>
      if !s1.tableExists || hasId s1.rows label_id then
        (.ok (), closeConn s1)
      else
        (.ok (), closeConn { s1 with rows := s1.rows ++ [(label_id, json_data)] })

/-- Embeds `get_label_data` (src/database.py lines 57-77): opens a connection
(falling through to an implicit `None` when that fails), `SELECT`s the row by
id, and deserializes its data — `sqlite3.Error` (e.g. missing table) and
`json.JSONDecodeError` are both caught and converted to `None`; `finally`
closes the connection. Never raises. -/
def get_label_data (s : DBState) (label_id : String) : Option Json × DBState :=
  match get_db_connection s with
  | (none, s1) => (none, s1)
  | (some _, s1) =>
    if !s1.tableExists then
      (none, closeConn s1)
    else
      match s1.rows.lookup label_id with
      | none => (none, closeConn s1)
      | some txt => (json_loads txt, closeConn s1)

/-- Modelled from the spec: `delete_label_data` is imported by src/app.py
line 8 but absent from src/database.py. Spec section 4.1: removes the row if
present and returns whether a row was actually removed. -/
def delete_label_data (s : DBState) (label_id : String) : Bool × DBState :=
  if hasId s.rows label_id then
    (true, { s with rows := s.rows.filter (fun r => r.1 != label_id) })
  else
    (false, s)

/-- Modelled from the spec: `get_all_label_summaries` is imported by
src/app.py line 8 but absent from src/database.py. Spec section 4.1: returns
every stored document, no pagination, no filtering. -/
def get_all_label_summaries (s : DBState) : List Json × DBState :=
  (s.rows.filterMap (fun r => json_loads r.2), s)

/-! ### Python-semantics helpers used by src/app.py -/

/-- Python truthiness of a parsed JSON value, as tested by `if not data:` in
`create_label` and `if not label_data:` in `unified_exhibit_site`:
`None`, `False`, `0`, `""`, `[]` and `{}` are falsy. -/
def jsonTruthy : Json → Bool
  | .null => false
  | .bool b => b
  | .num n => n != 0
  | .str s => !(s == "")
  | .arr elems => !elems.isEmpty
  | .obj fields => !fields.isEmpty

/-- Python `dict.get` on a dict built by `json.loads` from an association
list of fields: the LAST binding of a duplicated key wins, absent keys give
`none`. -/
def dictGet (fields : List (String × Json)) (key : String) : Option Json :=
  match fields with
  | [] => none
  | (k, v) :: rest =>
    match dictGet rest key with
    | some r => some r
    | none => if k == key then some v else none

mutual

/-- Python `repr` of a parsed JSON value (used inside containers by
`str`/f-string formatting; string escaping inside `repr` is not modelled
because no claim depends on it). -/
def pyRepr : Json → String
  | .null => "None"
  | .bool true => "True"
  | .bool false => "False"
  | .num n => toString n
  | .str s => "'" ++ s ++ "'"
  | .arr elems => "[" ++ String.intercalate ", " (pyReprList elems) ++ "]"
  | .obj fields => "\x7b" ++ String.intercalate ", " (pyReprFields fields) ++ "\x7d"

def pyReprList : List Json → List String
  | [] => []
  | x :: xs => pyRepr x :: pyReprList xs

def pyReprFields : List (String × Json) → List String
  | [] => []
  | (k, v) :: fs => ("'" ++ k ++ "': " ++ pyRepr v) :: pyReprFields fs

end

/-- Python `str()` of a parsed JSON value, as applied by the f-string
`f'\x7btemplate_type\x7d_label.html'`: a `str` formats as itself, everything
else as its `repr`. -/
def pyStr : Json → String
  | .str s => s
  | v => pyRepr v

/-- Python string slicing `s[:n]`, as in `str(uuid.uuid4())[:8]`. -/
def strSlice (s : String) (n : Nat) : String :=
  ⟨s.data.take n⟩

/-! ### File upload (src/app.py lines 23-66) -/

/-- The allowed upload extensions (src/app.py line 13). -/
def ALLOWED_EXTENSIONS : List String := ["png", "jpg", "jpeg", "gif", "mp3", "wav"]

/-- Python `filename.rsplit('.', 1)[1]` when `'.' in filename`: the text after
the last dot, computed on the character list. -/
def finalExtension (filename : String) : String :=
  ⟨(filename.data.reverse.takeWhile (fun c => c != '.')).reverse⟩

/-- Python `.lower()` on a filename extension, computed on the character
list. -/
def lowerStr (s : String) : String :=
  ⟨s.data.map Char.toLower⟩

/-- Embeds `allowed_file` (src/app.py lines 23-25):
`'.' in filename and filename.rsplit('.', 1)[1].lower() in ALLOWED_EXTENSIONS`. -/
def allowed_file (filename : String) : Bool :=
  filename.data.contains '.' &&
    ALLOWED_EXTENSIONS.contains (lowerStr (finalExtension filename))

/-- Model of the external `werkzeug.utils.secure_filename`: sanitizes the
client filename by dropping path separators and other unsafe characters
(spec section 4.2; the exact sanitization does not matter to any claim). -/
def secure_filename (name : String) : String :=
  ⟨name.data.filter (fun c => c.isAlphanum || c == '.' || c == '-' || c == '_')⟩

/-- A `POST /api/upload` request: `file = none` models a request with no
`'file'` part; otherwise the client-supplied filename (the bytes of the file
play no role in any claim). -/
structure UploadReq where
  file : Option String

/-- Responses of `upload_file`, by constructor: 400 with an error body, or
200 with the success body. -/
inductive UploadResponse where
  | badRequest (error : String) : UploadResponse
  | ok (filename media_uri : String) : UploadResponse

/-- HTTP status code of an `upload_file` response. -/
def UploadResponse.status : UploadResponse → Nat
  | .badRequest _ => 400
  | .ok _ _ => 200

/-- Embeds the route `POST /api/upload` (src/app.py lines 38-66). `uuidHex`
is the fresh `uuid.uuid4().hex` generated for this request; the `file.save`
call writes the bytes to disk and is outside every claim. `url_for` on
`uploaded_file` yields the `/uploads/<filename>` path. -/
def upload_file (uuidHex : String) (req : UploadReq) : UploadResponse :=
  match req.file with
  | none => .badRequest "No file part in the request"
  | some fname =>
    if fname == "" then
      .badRequest "No selected file"
    else if allowed_file fname then
      let filename := secure_filename fname
      let unique_filename := uuidHex ++ "_" ++ filename
      .ok unique_filename ("/uploads/" ++ unique_filename)
    else
      .badRequest "File type not allowed"

/-! ### Label creation (src/app.py lines 76-101) -/

/-- Responses of `create_label`, by constructor: 400 with an error body,
201 with the success body, or 500 when the `except Exception` handler fires. -/
inductive CreateResponse where
  | badRequest (error : String) : CreateResponse
  | created (message label_id url : String) : CreateResponse
  | serverError (error : String) : CreateResponse

/-- HTTP status code of a `create_label` response. -/
def CreateResponse.status : CreateResponse → Nat
  | .badRequest _ => 400
  | .created _ _ _ => 201
  | .serverError _ => 500

/-- Embeds the route `POST /api/create_label` (src/app.py lines 76-101).
`body` is the result of `request.get_json()`: `none` when the request carries
no JSON data, otherwise the parsed value. `uuidStr` is the fresh
`str(uuid.uuid4())` (always 36 characters) generated for this request.
`url_for('unified_exhibit_site', label_id=...)` yields `/exhibit/<label_id>`.
Any exception escaping the body — in particular a `TypeError` propagating out
of `store_label_data` — is caught and turned into a 500 response. -/
def create_label (s : DBState) (uuidStr : String) (body : Option Json) :
    CreateResponse × DBState :=
  match body with
  | none => (.badRequest "No JSON data provided in request body.", s)
  | some data =>
    if !jsonTruthy data then
      (.badRequest "No JSON data provided in request body.", s)
    else
      let label_id := strSlice uuidStr 8
      match store_label_data s label_id (.jsonable data) with
      | (.ok _, s1) =>
        (.created "Exhibit label data successfully saved." label_id
          ("/exhibit/" ++ label_id), s1)
      | (.error _, s1) =>
        (.serverError "Internal server error", s1)

/-! ### Label deletion (src/app.py lines 106-114) -/

/-- Responses of `delete_label`, by constructor: 200 with a message body or
404 with an error body. -/
inductive DeleteResponse where
  | okMsg (message : String) : DeleteResponse
  | errMsg (error : String) : DeleteResponse

/-- HTTP status code of a `delete_label` response. -/
def DeleteResponse.status : DeleteResponse → Nat
  | .okMsg _ => 200
  | .errMsg _ => 404

/-- Embeds the route `DELETE /api/delete_label/<label_id>`
(src/app.py lines 106-114). -/
def delete_label (s : DBState) (label_id : String) : DeleteResponse × DBState :=
  match delete_label_data s label_id with
  | (true, s1) => (.okMsg ("Label " ++ label_id ++ " deleted successfully."), s1)
  | (false, s1) => (.errMsg ("Could not delete label " ++ label_id ++ "."), s1)

/-! ### QR code generation (src/app.py lines 119-138) -/

/-- Modelled from the spec: the external `qrcode` + Pillow pipeline
(`QRCode(version=1, ERROR_CORRECT_L, box_size=10, border=4)`, `add_data`,
`make(fit=True)`, `make_image(black, white)`, PNG-encode into an in-memory
buffer). Spec section 4.3 specifies only that this is a deterministic
encoding of the URL string into PNG bytes; the concrete stand-in below is an
arbitrary deterministic byte encoding with that property. -/
def qr_png_bytes (url : String) : List Nat :=
  url.data.map Char.toNat

/-- The base64 alphabet. -/
def base64Chars : List Char :=
  "ABCDEFGHIJKLMNOPQRSTUVWXYZabcdefghijklmnopqrstuvwxyz0123456789+/".data

/-- The base64 digit for a 6-bit value. -/
def base64Digit (n : Nat) : Char :=
  base64Chars.getD n '?'

/-- Standard base64 encoding of a byte list (each byte taken mod 256),
embedding `base64.b64encode(...).decode('utf-8')`. -/
def base64Encode : List Nat → String
  | [] => ""
  | [b0] =>
    String.mk [base64Digit (b0 % 256 / 4), base64Digit (b0 % 256 % 4 * 16)] ++ "=="
  | [b0, b1] =>
    String.mk [base64Digit (b0 % 256 / 4),
      base64Digit (b0 % 256 % 4 * 16 + b1 % 256 / 16),
      base64Digit (b1 % 256 % 16 * 4)] ++ "="
  | b0 :: b1 :: b2 :: rest =>
    String.mk [base64Digit (b0 % 256 / 4),
      base64Digit (b0 % 256 % 4 * 16 + b1 % 256 / 16),
      base64Digit (b1 % 256 % 16 * 4 + b2 % 256 / 64),
      base64Digit (b2 % 256 % 64)] ++ base64Encode rest

/-- Embeds `generate_qrcode_base64` (src/app.py lines 119-138): renders the
QR PNG for `url` into an in-memory buffer, base64-encodes it, and prepends
the data-URI header. The function takes no part of the application state and
returns a value computed from `url` alone. -/
def generate_qrcode_base64 (url : String) : String :=
  "data:image/png;base64," ++ base64Encode (qr_png_bytes url)

/-- Two successive calls of `generate_qrcode_base64` from a given application
state, with the state threaded through explicitly to make the absence of
side effects statable: neither call touches or alters the state. -/
def generate_qrcode_twice (s : DBState) (url : String) :
    (String × String) × DBState :=
  ((generate_qrcode_base64 url, generate_qrcode_base64 url), s)

/-! ### The exhibit viewer (src/app.py lines 144-174) -/

/-- Responses of `unified_exhibit_site`, by constructor: the rendered
`error_404.html` page (status 404), the rendered `base_site.html` page with
its template arguments (status 200), or the Flask-level 500 page produced by
an uncaught exception (`label_data.get` raising `AttributeError` when the
stored document is not a dict). -/
inductive ExhibitResponse where
  | notFound (label_id : String) : ExhibitResponse
  | page (all_exhibits : List Json) (current_exhibit : Json)
      (current_template : String) (qr_code_image : String) : ExhibitResponse
  | serverError : ExhibitResponse

/-- HTTP status code of a `unified_exhibit_site` response. -/
def ExhibitResponse.status : ExhibitResponse → Nat
  | .notFound _ => 404
  | .page _ _ _ _ => 200
  | .serverError => 500

/-- The `current_template` argument passed to the renderer, when the response
is a rendered page. -/
def ExhibitResponse.currentTemplateName : ExhibitResponse → Option String
  | .page _ _ t _ => some t
  | _ => none

/-- Modelled from the spec: the fixed enumerated set of template names
(spec section 6: at minimum a default/minimalist layout, a timeline layout,
a gallery layout; the template files themselves are not under src/). -/
def recognizedTemplates : List String := ["minimalist", "timeline", "gallery"]

/-- Embeds the route `GET /exhibit/<label_id>` (src/app.py lines 144-174):
fetches the sidebar summaries and the document, 404s when the document is
absent or falsy, builds the external URL (`host` is the scheme-and-authority
prefix `url_for(..., _external=True)` adds), generates the QR code, reads
`label_data.get('template', 'minimalist')` — raising `AttributeError`
(an unhandled 500) when the parsed document is not a dict — and renders
`base_site.html` with `current_template = f'\x7btemplate_type\x7d_label.html'`. -/
def unified_exhibit_site (s : DBState) (host : String) (label_id : String) :
    ExhibitResponse × DBState :=
  let res1 := get_all_label_summaries s
  let all_exhibits := res1.1
  let res2 := get_label_data res1.2 label_id
  match res2.1 with
  | none => (.notFound label_id, res2.2)
  | some label_data =>
    if !jsonTruthy label_data then
      (.notFound label_id, res2.2)
    else
      let full_url := host ++ "/exhibit/" ++ label_id
      let qr_code_image := generate_qrcode_base64 full_url
      match label_data with
      | .obj fields =>
        let template_type :=
          match dictGet fields "template" with
          | none => "minimalist"
          | some v => pyStr v
        (.page all_exhibits (.obj fields) (template_type ++ "_label.html")
          qr_code_image, res2.2)
      | _ => (.serverError, res2.2)

/-! ### Helper lemmas -/

/-- A row appended behind rows whose keys all differ from `label_id` is the
row that `lookup label_id` finds. -/
theorem lookup_append_self (rows : List (String × StoredText)) (label_id : String)
    (t : StoredText) (h : hasId rows label_id = false) :
    (rows ++ [(label_id, t)]).lookup label_id = some t := by
  induction rows with
  | nil => simp [List.lookup]
  | cons hd tl ih =>
    obtain ⟨k, v⟩ := hd
    simp only [hasId, List.any_cons, Bool.or_eq_false_iff] at h
    have h1 : (label_id == k) = false := by
      have hk : ¬(k = label_id) := by simpa using h.1
      simp only [beq_eq_false_iff_ne]
      exact fun e => hk e.symm
    simpa [List.lookup, h1] using ih h.2

/-- After filtering out every row keyed by `label_id`, no row keyed by
`label_id` remains. -/
theorem hasId_filter_ne (rows : List (String × StoredText)) (label_id : String) :
    hasId (rows.filter (fun r => r.1 != label_id)) label_id = false := by
  induction rows with
  | nil => rfl
  | cons hd tl ih =>
    cases h : (hd.1 == label_id) with
    | true => simpa [List.filter_cons, bne, h] using ih
    | false => simpa [List.filter_cons, bne, h, hasId, List.any_cons] using ih

/-- `store_label_data` on a serializable value returns normally from every
path: connection failure is swallowed by `if conn:`, and any `sqlite3.Error`
from the `INSERT` is caught by the `except Error` handler. -/
theorem store_jsonable_ok (s : DBState) (label_id : String) (d : Json) :
    (store_label_data s label_id (.jsonable d)).1 = .ok () := by
  unfold store_label_data get_db_connection
  cases h : s.connAvailable <;> simp [json_dumps] <;> split <;> rfl

/-! ### The claims -/

/-- C1: Round-trip fidelity — for every JSON-serializable document `d` and
every identifier not already present in the store, after
`store_label_data label_id d` succeeds, `get_label_data label_id` returns a
document equal to `d`. -/
theorem store_fetch_round_trip (s : DBState) (label_id : String) (d : Json)
    (h1 : s.connAvailable = true) (h2 : s.tableExists = true)
    (h3 : hasId s.rows label_id = false) :
    (store_label_data s label_id (.jsonable d)).1 = .ok () ∧
    (get_label_data (store_label_data s label_id (.jsonable d)).2 label_id).1
      = some d := by
  refine ⟨store_jsonable_ok s label_id d, ?_⟩
  unfold store_label_data get_db_connection
  simp only [h1, if_true, json_dumps, h2, h3, Bool.not_true, Bool.false_or, if_false]
  unfold get_label_data get_db_connection closeConn
  simp [h1, h2, lookup_append_self s.rows label_id (.jsonOf d) h3, json_loads]

/-- Witness for C1 at a concrete fresh store and document. -/
theorem store_fetch_round_trip_witness :
    (get_label_data (store_label_data ⟨true, true, [], 0⟩ "vase0001"
        (.jsonable (Json.obj [("title", Json.str "Vase")]))).2 "vase0001").1
      = some (Json.obj [("title", Json.str "Vase")]) :=
  (store_fetch_round_trip ⟨true, true, [], 0⟩ "vase0001"
    (Json.obj [("title", Json.str "Vase")]) rfl rfl rfl).2

/-- C2 counterexample: at a store that already contains the id `abc12345`,
`store_label_data` does NOT propagate the primary-key violation — it returns
normally with the table unchanged — and `create_label` on a colliding
generated id returns 201, not 500. -/
theorem create_collision_counterexample :
    (store_label_data ⟨true, true, [("abc12345", .jsonOf Json.null)], 0⟩ "abc12345"
        (.jsonable (Json.obj [("title", Json.str "Vase")]))).1 = .ok () ∧
    ((store_label_data ⟨true, true, [("abc12345", .jsonOf Json.null)], 0⟩ "abc12345"
        (.jsonable (Json.obj [("title", Json.str "Vase")]))).2).rows
      = [("abc12345", .jsonOf Json.null)] ∧
    ((create_label ⟨true, true, [("abc12345", .jsonOf Json.null)], 0⟩
        "abc12345-0000-4000-8000-000000000000"
        (some (Json.obj [("title", Json.str "Vase")]))).1).status = 201 := by
  exact ⟨rfl, rfl, rfl⟩

/-- C2 (amended): if the id already exists, `store_label_data` catches the
primary-key violation inside its own `except sqlite3.Error` handler, logs it,
and returns normally with the table unchanged, so `create_label` returns 201
on a collision; only serialization failures (`json.dumps` raising
`TypeError`) propagate out of `store_label_data`, and those are what
`create_label`'s `except Exception` handler would turn into a 500. -/
theorem store_collision_swallowed (s : DBState) (label_id : String) (d : Json)
    (h1 : s.connAvailable = true) (h3 : hasId s.rows label_id = true) :
    (store_label_data s label_id (.jsonable d)).1 = .ok () ∧
    ((store_label_data s label_id (.jsonable d)).2).rows = s.rows ∧
    (∀ uuidStr j, jsonTruthy j = true → hasId s.rows (strSlice uuidStr 8) = true →
      ((create_label s uuidStr (some j)).1).status = 201) ∧
    (store_label_data s label_id .unjsonable).1 = .error .typeError := by
  refine ⟨store_jsonable_ok s label_id d, ?_, ?_, ?_⟩
  · unfold store_label_data get_db_connection
    simp [h1, json_dumps, h3, closeConn]
  · intro uuidStr j hj hcoll
    unfold create_label
    simp only [hj, Bool.not_true, if_false]
    unfold store_label_data get_db_connection
    simp [h1, json_dumps, hcoll, CreateResponse.status]
  · unfold store_label_data get_db_connection
    simp [h1, json_dumps]

/-- Witness for the amended C2 at a concrete colliding store. -/
theorem store_collision_swallowed_witness :
    ((store_label_data ⟨true, true, [("abc12345", .jsonOf Json.null)], 0⟩ "abc12345"
        (.jsonable (Json.obj [("n", Json.num 1)]))).2).rows
      = [("abc12345", .jsonOf Json.null)] ∧
    ((create_label ⟨true, true, [("abc12345", .jsonOf Json.null)], 0⟩
        "abc12345-0000-4000-8000-000000000000"
        (some (Json.obj [("n", Json.num 1)]))).1).status = 201 := by
  have h := store_collision_swallowed ⟨true, true, [("abc12345", .jsonOf Json.null)], 0⟩
    "abc12345" (Json.obj [("n", Json.num 1)]) rfl rfl
  exact ⟨h.2.1, h.2.2.1 "abc12345-0000-4000-8000-000000000000"
    (Json.obj [("n", Json.num 1)]) rfl rfl⟩

/-- C3 counterexample: a stored document whose `template` field is `"bogus"`
— not in the enumerated set — does NOT make the viewer render the default
minimalist layout: the renderer is handed `bogus_label.html`. -/
theorem template_fallback_counterexample :
    recognizedTemplates.contains "bogus" = false ∧
    ((unified_exhibit_site ⟨true, true,
        [("id1hello", .jsonOf (Json.obj [("template", Json.str "bogus")]))], 0⟩
        "http://h" "id1hello").1).currentTemplateName = some "bogus_label.html" ∧
    ("bogus_label.html" : String) ≠ "minimalist_label.html" := by
  refine ⟨rfl, rfl, by decide⟩

/-- C3 (amended): when the stored document lacks a `template` field the viewer
falls back to the `minimalist` layout, but a PRESENT value `v` is used
directly — the renderer is handed `f'{str(v)}_label.html'` with no
validation against the enumerated set, so unrecognized values select a
nonexistent template instead of the default. -/
theorem template_selection (s : DBState) (host label_id : String)
    (fields : List (String × Json))
    (h1 : s.connAvailable = true) (h2 : s.tableExists = true)
    (h3 : s.rows.lookup label_id = some (.jsonOf (Json.obj fields)))
    (h4 : fields.isEmpty = false) :
    (dictGet fields "template" = none →
      ((unified_exhibit_site s host label_id).1).currentTemplateName
        = some "minimalist_label.html") ∧
    (∀ v, dictGet fields "template" = some v →
      ((unified_exhibit_site s host label_id).1).currentTemplateName
        = some (pyStr v ++ "_label.html")) := by
  unfold unified_exhibit_site get_all_label_summaries get_label_data get_db_connection
  simp only [h1, if_true, h2, Bool.not_true, if_false, h3, json_loads,
    jsonTruthy, h4, Bool.not_false, if_true]
  constructor
  · intro hnone
    have he : ("minimalist" ++ "_label.html" : String) = "minimalist_label.html" := rfl
    simp [hnone, h4, he, ExhibitResponse.currentTemplateName]
  · intro v hv
    simp [hv, h4, ExhibitResponse.currentTemplateName]

/-- Witness for the amended C3: a recognized value selects its own layout. -/
theorem template_selection_witness :
    ((unified_exhibit_site ⟨true, true,
        [("id2hello", .jsonOf (Json.obj [("template", Json.str "gallery")]))], 0⟩
        "http://h" "id2hello").1).currentTemplateName = some "gallery_label.html" := by
  exact (template_selection ⟨true, true,
    [("id2hello", .jsonOf (Json.obj [("template", Json.str "gallery")]))], 0⟩
    "http://h" "id2hello" [("template", Json.str "gallery")] rfl rfl rfl rfl).2
    (Json.str "gallery") rfl

/-- C4: delete semantics — the route returns 200 with the message body
exactly when `delete_label_data` removed a row, 404 with the error body when
no row was present, and after a successful delete a second delete of the same
identifier returns false. -/
theorem delete_label_semantics (s : DBState) (label_id : String) :
    (((delete_label s label_id).1)
        = .okMsg ("Label " ++ label_id ++ " deleted successfully.")
      ↔ (delete_label_data s label_id).1 = true) ∧
    (((delete_label s label_id).1)
        = .errMsg ("Could not delete label " ++ label_id ++ ".")
      ↔ (delete_label_data s label_id).1 = false) ∧
    (((delete_label s label_id).1).status = 200
      ↔ (delete_label_data s label_id).1 = true) ∧
    ((delete_label_data s label_id).1 = true →
      (delete_label_data (delete_label_data s label_id).2 label_id).1 = false) := by
  unfold delete_label delete_label_data
  cases h : hasId s.rows label_id with
  | true =>
    simp [DeleteResponse.status, hasId_filter_ne]
  | false =>
    simp [DeleteResponse.status]

/-- Witness for C4 at a concrete one-row store: deleting succeeds once with a
200 and a second delete returns false. -/
theorem delete_label_semantics_witness :
    ((delete_label ⟨true, true, [("aaaa1111", .jsonOf Json.null)], 0⟩ "aaaa1111").1).status
      = 200 ∧
    (delete_label_data
      (delete_label_data ⟨true, true, [("aaaa1111", .jsonOf Json.null)], 0⟩ "aaaa1111").2
      "aaaa1111").1 = false := by
  have h := delete_label_semantics ⟨true, true, [("aaaa1111", .jsonOf Json.null)], 0⟩
    "aaaa1111"
  exact ⟨h.2.2.1.mpr rfl, h.2.2.2 rfl⟩

/-- C5: corruption treated as absence — `get_label_data` returns `none` both
when no row with the id exists and when the stored data string fails to parse
as JSON, and the two cases produce identical results at the fetch boundary. -/
theorem fetch_corruption_as_absence (s : DBState) (label_id : String)
    (h1 : s.connAvailable = true) (h2 : s.tableExists = true)
    (h : s.rows.lookup label_id = none ∨ s.rows.lookup label_id = some .corrupt) :
    (get_label_data s label_id).1 = none ∧
    (∀ t : DBState, ∀ lid2 : String, t.connAvailable = true → t.tableExists = true →
      t.rows.lookup lid2 = none →
      (get_label_data s label_id).1 = (get_label_data t lid2).1) := by
  have habs : (get_label_data s label_id).1 = none := by
    unfold get_label_data get_db_connection
    rcases h with h | h <;> simp [h1, h2, h, json_loads]
  refine ⟨habs, ?_⟩
  intro t lid2 k1 k2 k3
  rw [habs]
  unfold get_label_data get_db_connection
  simp [k1, k2, k3]

/-- Witness for C5: a corrupt row and a missing row both fetch as `none`. -/
theorem fetch_corruption_as_absence_witness :
    (get_label_data ⟨true, true, [("c1c1c1c1", .corrupt)], 0⟩ "c1c1c1c1").1 = none ∧
    (get_label_data ⟨true, true, [("c1c1c1c1", .corrupt)], 0⟩ "c1c1c1c1").1
      = (get_label_data ⟨true, true, [], 0⟩ "missing0").1 := by
  have h := fetch_corruption_as_absence ⟨true, true, [("c1c1c1c1", .corrupt)], 0⟩
    "c1c1c1c1" rfl rfl (Or.inr rfl)
  exact ⟨h.1, h.2 ⟨true, true, [], 0⟩ "missing0" rfl rfl rfl⟩

/-- C6: upload acceptance rule — `POST /api/upload` returns 400 when there is
no file part, when the client filename is empty, or when the filename's final
dot-delimited segment, lowercased, is not among png, jpg, jpeg, gif, mp3,
wav (in particular when the filename has no dot); otherwise it returns 200. -/
theorem upload_acceptance_rule (uuidHex : String) (req : UploadReq) :
    (upload_file uuidHex req).status =
      match req.file with
      | none => 400
      | some fname =>
        if fname = "" then 400
        else if fname.data.contains '.'
            && ALLOWED_EXTENSIONS.contains (lowerStr (finalExtension fname)) then 200
        else 400 := by
  obtain ⟨file⟩ := req
  cases file with
  | none => rfl
  | some fname =>
    cases hb : (fname == "") with
    | true =>
      have h : fname = "" := by simpa using hb
      simp [upload_file, hb, h, UploadResponse.status]
    | false =>
      have h : ¬fname = "" := by simpa using hb
      cases ha : (fname.data.contains '.'
          && ALLOWED_EXTENSIONS.contains (lowerStr (finalExtension fname))) with
      | true =>
        have ha2 : allowed_file fname = true := by rw [allowed_file]; exact ha
        have hc : '.' ∈ fname.data ∧ lowerStr (finalExtension fname) ∈ ALLOWED_EXTENSIONS := by
          simpa using ha
        simp [upload_file, hb, h, ha2, hc, UploadResponse.status]
      | false =>
        have ha2 : allowed_file fname = false := by rw [allowed_file]; exact ha
        have hc : ¬('.' ∈ fname.data ∧ lowerStr (finalExtension fname) ∈ ALLOWED_EXTENSIONS) := by
          simpa using ha
        simp [upload_file, hb, h, ha2, hc, UploadResponse.status]

/-- C7: create-label response shape — no JSON body gives 400; a (truthy) JSON
body gives 201 with the fixed message, the 8-character label id cut from the
generated UUID string, and `url = "/exhibit/" ++ label_id`. -/
theorem create_label_response_shape (s : DBState) (uuidStr : String) (j : Json)
    (hlen : uuidStr.length = 36) (hj : jsonTruthy j = true) :
    ((create_label s uuidStr none).1)
      = .badRequest "No JSON data provided in request body." ∧
    ((create_label s uuidStr none).1).status = 400 ∧
    (∃ s1, create_label s uuidStr (some j)
      = (.created "Exhibit label data successfully saved." (strSlice uuidStr 8)
          ("/exhibit/" ++ strSlice uuidStr 8), s1)) ∧
    ((create_label s uuidStr (some j)).1).status = 201 ∧
    (strSlice uuidStr 8).length = 8 := by
  have hstore := store_jsonable_ok s (strSlice uuidStr 8) j
  have hpair : store_label_data s (strSlice uuidStr 8) (.jsonable j)
      = (.ok (), (store_label_data s (strSlice uuidStr 8) (.jsonable j)).2) := by
    rw [← hstore]
  have hcr : create_label s uuidStr (some j)
      = (.created "Exhibit label data successfully saved." (strSlice uuidStr 8)
          ("/exhibit/" ++ strSlice uuidStr 8),
         (store_label_data s (strSlice uuidStr 8) (.jsonable j)).2) := by
    unfold create_label
    simp only [hj]
    rw [hpair]
    rfl
  refine ⟨rfl, rfl, ⟨(store_label_data s (strSlice uuidStr 8) (.jsonable j)).2, hcr⟩,
    ?_, ?_⟩
  · rw [hcr]
    rfl
  · have hl : uuidStr.data.length = 36 := hlen
    show (uuidStr.data.take 8).length = 8
    rw [List.length_take]
    omega

/-- Witness for C7 at a concrete 36-character UUID string and document. -/
theorem create_label_response_shape_witness :
    ((create_label ⟨true, true, [], 0⟩ "01234567-89ab-4cde-8f01-23456789abcd"
        (some (Json.obj [("title", Json.str "Vase"), ("template", Json.str "gallery")]))).1).status
      = 201 ∧
    (strSlice "01234567-89ab-4cde-8f01-23456789abcd" 8).length = 8 := by
  have h := create_label_response_shape ⟨true, true, [], 0⟩
    "01234567-89ab-4cde-8f01-23456789abcd"
    (Json.obj [("title", Json.str "Vase"), ("template", Json.str "gallery")]) rfl rfl
  exact ⟨h.2.2.2.1, h.2.2.2.2⟩

/-- C8: QR generation determinism — `generate_qrcode_base64` computes its
result from the URL alone: two calls from the same state produce identical
strings, the application state is untouched, and the result is exactly the
data-URI header followed by the base64 encoding of the PNG bytes of the
URL. -/
theorem generate_qrcode_pure (s : DBState) (url : String) :
    ((generate_qrcode_twice s url).1).1 = ((generate_qrcode_twice s url).1).2 ∧
    (generate_qrcode_twice s url).2 = s ∧
    generate_qrcode_base64 url
      = "data:image/png;base64," ++ base64Encode (qr_png_bytes url) :=
  ⟨rfl, rfl, rfl⟩

/-- C9: fetch is total and conflates connection failure with absence — when
no database connection can be established `get_label_data` returns `none`,
identical to its result on a missing record, and on every state it returns
either a parsed document or `none` (it never raises). -/
theorem fetch_total_conflates_connection_failure (s t : DBState) (label_id : String)
    (hs : s.connAvailable = false)
    (ht1 : t.connAvailable = true) (ht2 : t.tableExists = true)
    (ht3 : t.rows.lookup label_id = none) :
    (get_label_data s label_id).1 = none ∧
    (get_label_data s label_id).1 = (get_label_data t label_id).1 ∧
    (∀ u : DBState, ∀ lid : String,
      (get_label_data u lid).1 = none ∨ ∃ d, (get_label_data u lid).1 = some d) := by
  have h1 : (get_label_data s label_id).1 = none := by
    unfold get_label_data get_db_connection
    simp [hs]
  have h2 : (get_label_data t label_id).1 = none := by
    unfold get_label_data get_db_connection
    simp [ht1, ht2, ht3]
  refine ⟨h1, h1.trans h2.symm, ?_⟩
  intro u lid
  cases h : (get_label_data u lid).1 with
  | none => exact Or.inl rfl
  | some d => exact Or.inr ⟨d, rfl⟩

/-- Witness for C9: a state with no reachable database fetches `none`, equal
to the fetch of a missing record. -/
theorem fetch_total_conflates_connection_failure_witness :
    (get_label_data ⟨false, true, [("row1row1", .jsonOf Json.null)], 0⟩ "row1row1").1
      = none ∧
    (get_label_data ⟨false, true, [("row1row1", .jsonOf Json.null)], 0⟩ "row1row1").1
      = (get_label_data ⟨true, true, [], 0⟩ "row1row1").1 := by
  have h := fetch_total_conflates_connection_failure
    ⟨false, true, [("row1row1", .jsonOf Json.null)], 0⟩ ⟨true, true, [], 0⟩
    "row1row1" rfl rfl rfl rfl
  exact ⟨h.1, h.2.1⟩

/-- C10: connection release invariant — `init_db`, `store_label_data` and
`get_label_data` each leave the number of open connections unchanged on every
input, including the exception path where `json.dumps` fails inside
`store_label_data` (every `finally conn.close()` runs). -/
theorem connections_released (s : DBState) (label_id : String) (data : PyVal) :
    (init_db s).openConns = s.openConns ∧
    ((store_label_data s label_id data).2).openConns = s.openConns ∧
    ((get_label_data s label_id).2).openConns = s.openConns := by
  refine ⟨?_, ?_, ?_⟩
  · unfold init_db get_db_connection closeConn
    cases h : s.connAvailable <;> simp
  · unfold store_label_data get_db_connection closeConn
    cases h : s.connAvailable <;> cases data <;> simp [json_dumps] <;> split <;> simp
  · unfold get_label_data get_db_connection closeConn
    cases h : s.connAvailable <;> simp <;> split <;> try split
    all_goals simp

end ArtifactLabels
